import Mathlib

/-!
Shallow embedding of `src/src/common/monitoring/DataDistMonitoring.h`
(namespace `o2::DataDistribution`).

Modelling conventions:
* C++ `double` and `float` values are modelled as exact rationals (`ℚ`);
  the numeric-limit sentinels used by the source are embedded as their
  exact rational values.
* `unsigned`/`uint32_t`/`uint64_t` quantities are modelled as `ℕ`, with an
  explicit `% 2 ^ 32` wherever the source's 32-bit arithmetic can wrap, and
  an explicit range guard (returning `none`) where the source performs a
  floating-point-to-`unsigned` conversion that is undefined out of range.
* `std::chrono` time points are modelled by their microsecond tick count
  (`ℕ`), matching the `time_point_cast<microseconds>` done by the source.
* The `o2::monitoring::Monitoring` backend object is modelled by the
  state the header mutates through it (run number, global tags).
-/

namespace DataDistribution

/-- `std::numeric_limits<double>::max()`: the largest finite IEEE-754
binary64 value, `(2^53 - 1) * 2^971`, as an exact rational. -/
def doubleLimitMax : ℚ := (2 ^ 53 - 1) * 2 ^ 971

/-- `std::numeric_limits<double>::min()`: the smallest positive normal
IEEE-754 binary64 value, `2^(-1022)`, as an exact rational. Note that this
is a tiny positive number, not the most negative double
(`std::numeric_limits<double>::lowest()`). -/
def doubleLimitMin : ℚ := 1 / 2 ^ 1022

/-- `std::numeric_limits<float>::epsilon()`: `2^(-23)`, as an exact
rational. -/
def floatEpsilon : ℚ := 1 / 2 ^ 23

/-- `DataDistRateMetric::RateVals` (DataDistMonitoring.h lines 40-45):
per-key running statistics for a rate metric. Field initializers follow
the source: `mMin = std::numeric_limits<double>::max()`,
`mMax = std::numeric_limits<double>::min()`, `mMeanAcc = 0.0`,
`mCount = 0.0`. -/
structure RateVals where
  mMin : ℚ
  mMax : ℚ
  mMeanAcc : ℚ
  mCount : ℚ
deriving DecidableEq

/-- The default-constructed `RateVals`, with the source's field
initializers. -/
def RateVals.init : RateVals :=
  { mMin := doubleLimitMax, mMax := doubleLimitMin, mMeanAcc := 0, mCount := 0 }

/-- Modelled from the spec: the per-sample fold performed by
`DataDistMonitoring::RateMetricCollectionThread`, which is defined in
`DataDistMonitoring.cxx` and is not among the provided sources (only the
header is). Spec §4.3: "Algorithm for each sample with value `v`:
`min = minimum(min, v)`; `max = maximum(max, v)`; `meanAccumulator += v`;
`count += 1`." -/
def foldSample (r : RateVals) (v : ℚ) : RateVals :=
  { mMin := min r.mMin v
    mMax := max r.mMax v
    mMeanAcc := r.mMeanAcc + v
    mCount := r.mCount + 1 }

/-- Folding a list of samples for one key into a fresh `RateVals`. -/
def foldSamples (l : List ℚ) : RateVals :=
  l.foldl foldSample RateVals.init

/-- Modelled from the spec: `ConcurrentFifo::push_capacity` is declared in
`ConcurrentQueue.h`, which is not among the provided sources. Spec §4.1:
the queue is capacity-bounded and the design choice is
"drop-newest-on-full with no error surfaced to the caller"; below
capacity the element is appended (FIFO). -/
def push_capacity {α : Type} (cap : ℕ) (q : List α) (x : α) : List α :=
  if q.length < cap then q ++ [x] else q

/-- The state mutated through the `o2::monitoring::Monitoring` backend
pointer: `setRunNumber` and `addGlobalTag` are the only operations the
header invokes that the claims mention. -/
structure O2Monitoring where
  runNumber : ℕ
  globalTags : List (String × String)
deriving DecidableEq

/-- The mutable state of a `DataDistMonitoring` object
(DataDistMonitoring.h lines 50-136), restricted to the fields the
claims exercise. Defaults follow the in-class initializers:
`mActive = false`, `mLogMetric = false`, queues empty,
`mMonitoringIntervalMs = 1000`, `mMonitoringIntervalStepUs = 500000`;
`mO2Monitoring` is the backend pointer (`none` models null). -/
structure DataDistMonitoringState where
  mActive : Bool := false
  mLogMetric : Bool := false
  mO2Monitoring : Option O2Monitoring := none
  mMetricsQueue : List (String × String × ℚ) := []
  mRateMetricsQueue : List (String × String × ℚ) := []
  mMonitoringIntervalMs : ℕ := 1000
  mMonitoringIntervalStepUs : ℕ := 500000
deriving DecidableEq

namespace DataDistMonitoringState

/-- `DataDistMonitoring::push` (header lines 56-60): if
`mLogMetric || mO2Monitoring`, push the tuple onto `mMetricsQueue` with
capacity 4096; otherwise do nothing. -/
def push (s : DataDistMonitoringState) (pName pKey : String) (pVal : ℚ) :
    DataDistMonitoringState :=
  if s.mLogMetric || s.mO2Monitoring.isSome then
    { s with mMetricsQueue := push_capacity 4096 s.mMetricsQueue (pName, pKey, pVal) }
  else s

/-- `DataDistMonitoring::push_rate` (header lines 62-66): same gate as
`push`, targeting `mRateMetricsQueue`. -/
def push_rate (s : DataDistMonitoringState) (pName pKey : String) (pVal : ℚ) :
    DataDistMonitoringState :=
  if s.mLogMetric || s.mO2Monitoring.isSome then
    { s with mRateMetricsQueue := push_capacity 4096 s.mRateMetricsQueue (pName, pKey, pVal) }
  else s

/-- `DataDistMonitoring::set_partition_id` (header lines 68-72): if the
backend is present, `addGlobalTag("partition", pPartId)`. -/
def set_partition_id (s : DataDistMonitoringState) (pPartId : String) :
    DataDistMonitoringState :=
  match s.mO2Monitoring with
  | some m =>
      { s with mO2Monitoring := some ({ m with globalTags := ("partition", pPartId) :: m.globalTags }) }
  | none => s

/-- `DataDistMonitoring::set_run_number` (header lines 73-77): if the
backend is present, `setRunNumber(pRunNum)`. -/
def set_run_number (s : DataDistMonitoringState) (pRunNum : ℕ) :
    DataDistMonitoringState :=
  match s.mO2Monitoring with
  | some m => { s with mO2Monitoring := some ({ m with runNumber := pRunNum }) }
  | none => s

/-- `DataDistMonitoring::set_active` (header line 88). -/
def set_active (s : DataDistMonitoringState) (pActive : Bool) :
    DataDistMonitoringState :=
  { s with mActive := pActive }

/-- `DataDistMonitoring::set_interval` (header lines 89-92):
`mMonitoringIntervalMs = pIntMs;
mMonitoringIntervalStepUs =
  std::max(250U, (unsigned)(500U * std::floor(mMonitoringIntervalMs / 2000.0))) * 1000U`.
For every `unsigned` value of `pIntMs` the double quotient `pIntMs / 2000.0`
differs from the nearest integer by at least `1/2000`, far above its unit in
the last place, so `std::floor(pIntMs / 2000.0)` equals natural-number
division `pIntMs / 2000` exactly, which is how the floor is embedded; the
double product `500 * floor(...)` is below `2^31` for every `unsigned`
argument, so the cast back to `unsigned` is exact. The final `* 1000U`
multiply, however, is 32-bit `unsigned` arithmetic and wraps modulo `2^32`
before the result is widened into the `uint64_t` member, which the
`% 2 ^ 32` embeds (the wrap occurs for `pIntMs ≥ 17180000`). -/
def set_interval (s : DataDistMonitoringState) (pIntMs : ℕ) :
    DataDistMonitoringState :=
  { s with
    mMonitoringIntervalMs := pIntMs
    mMonitoringIntervalStepUs := ((max 250 (500 * (pIntMs / 2000))) * 1000) % 2 ^ 32 }

/-- `DataDistMonitoring::set_log` (header line 93). -/
def set_log (s : DataDistMonitoringState) (pLog : Bool) :
    DataDistMonitoringState :=
  { s with mLogMetric := pLog }

/-- `DataDistMonitoring::roundTimeNow` (header lines 97-105), on the
microsecond tick count of the argument:
`lNowSteps = (t + (StepUs - 1)) / StepUs` (integral `chrono` division),
result `lNowSteps * StepUs`. -/
def roundTimeNow (s : DataDistMonitoringState) (tUs : ℕ) : ℕ :=
  ((tUs + (s.mMonitoringIntervalStepUs - 1)) / s.mMonitoringIntervalStepUs) *
    s.mMonitoringIntervalStepUs

end DataDistMonitoringState

/-- One producer-side push operation against a `DataDistMonitoring`
object, for reasoning about bursts of pushes. -/
inductive PushOp where
  | plain (pName pKey : String) (pVal : ℚ)
  | rate (pName pKey : String) (pVal : ℚ)

/-- Apply one push operation. -/
def applyPush (s : DataDistMonitoringState) : PushOp → DataDistMonitoringState
  | .plain n k v => s.push n k v
  | .rate n k v => s.push_rate n k v

/-- Apply a burst of push operations in order. -/
def applyPushes (s : DataDistMonitoringState) (ops : List PushOp) :
    DataDistMonitoringState :=
  ops.foldl applyPush s

namespace DataDistMonitor

/-- `DataDistMonitor::enable_datadist` (header lines 160-166): if
`mDataDistMon` is non-null, `set_run_number(std::max(pRunNum, uint32_t(1)))`,
`set_partition_id(pPartId)`, `set_active(true)`. The `Option` argument
models the `mDataDistMon` unique pointer. -/
def enable_datadist (pRunNum : ℕ) (pPartId : String)
    (mon : Option DataDistMonitoringState) : Option DataDistMonitoringState :=
  match mon with
  | some s =>
      some (((s.set_run_number (max pRunNum 1)).set_partition_id pPartId).set_active true)
  | none => none

/-- `DataDistMonitor::set_interval` (header lines 168-176) acting on a
non-null `mDataDistMon`: when
`pInterval <= std::numeric_limits<float>::epsilon()` call
`set_active(false)`, else call
`set_interval(std::round(double(pInterval) * 1000.0))`. `std::round`
rounds half away from zero; on the positive arguments reached by the
else-branch this agrees with Mathlib's `round` (half up). The integral
double returned by `std::round` is then implicitly converted to the
`unsigned` parameter of the inner `set_interval`, a conversion that C++
defines only for values in `[0, 2^32)`; outside that range the behavior
is undefined, which the model makes explicit by returning `none`. -/
def set_interval (pInterval : ℚ) (s : DataDistMonitoringState) :
    Option DataDistMonitoringState :=
  if pInterval ≤ floatEpsilon then some (s.set_active false)
  else if 0 ≤ round (pInterval * 1000) ∧ round (pInterval * 1000) < 2 ^ 32 then
    some (s.set_interval (round (pInterval * 1000)).toNat)
  else none

end DataDistMonitor

/-! ## Helper lemmas -/

/-- The inductive invariant maintained by `foldSample`: the count is
nonnegative and the accumulated sum is bracketed by `count` copies of the
running min and max. -/
def RateValsInv (r : RateVals) : Prop :=
  0 ≤ r.mCount ∧ r.mMin * r.mCount ≤ r.mMeanAcc ∧ r.mMeanAcc ≤ r.mMax * r.mCount

lemma rateValsInv_init : RateValsInv RateVals.init := by
  refine ⟨le_refl 0, ?_, ?_⟩ <;> simp [RateVals.init]

lemma rateValsInv_foldSample {r : RateVals} (v : ℚ) (h : RateValsInv r) :
    RateValsInv (foldSample r v) := by
  obtain ⟨h0, h1, h2⟩ := h
  refine ⟨?_, ?_, ?_⟩
  · simp only [foldSample]
    linarith
  · have hm1 : min r.mMin v ≤ r.mMin := min_le_left _ _
    have hm2 : min r.mMin v ≤ v := min_le_right _ _
    have hmul : min r.mMin v * r.mCount ≤ r.mMin * r.mCount :=
      mul_le_mul_of_nonneg_right hm1 h0
    simp only [foldSample]
    calc min r.mMin v * (r.mCount + 1)
        = min r.mMin v * r.mCount + min r.mMin v := by ring
      _ ≤ r.mMeanAcc + v := by linarith
  · have hM1 : r.mMax ≤ max r.mMax v := le_max_left _ _
    have hM2 : v ≤ max r.mMax v := le_max_right _ _
    have hmul : r.mMax * r.mCount ≤ max r.mMax v * r.mCount :=
      mul_le_mul_of_nonneg_right hM1 h0
    simp only [foldSample]
    calc r.mMeanAcc + v
        ≤ max r.mMax v * r.mCount + max r.mMax v := by linarith
      _ = max r.mMax v * (r.mCount + 1) := by ring

lemma rateValsInv_foldl (l : List ℚ) :
    ∀ r, RateValsInv r → RateValsInv (l.foldl foldSample r) := by
  induction l with
  | nil => intro r h; simpa using h
  | cons a t ih =>
      intro r h
      simpa only [List.foldl_cons] using ih _ (rateValsInv_foldSample a h)

/-! ## Claims -/

/-- Claim C1: for every rate-metric record key whose `RateVals` results
from folding a list of samples per the §4.3 algorithm starting from the
default-initialized `RateVals`, once the count is positive the reported
mean `mMeanAcc / mCount` lies between `mMin` and `mMax`. -/
theorem rate_mean_between_min_and_max (l : List ℚ)
    (h : 0 < (foldSamples l).mCount) :
    (foldSamples l).mMin ≤ (foldSamples l).mMeanAcc / (foldSamples l).mCount ∧
      (foldSamples l).mMeanAcc / (foldSamples l).mCount ≤ (foldSamples l).mMax := by
  obtain ⟨-, h1, h2⟩ := rateValsInv_foldl l RateVals.init rateValsInv_init
  constructor
  · rw [le_div_iff₀ h]
    exact h1
  · rw [div_le_iff₀ h]
    exact h2

theorem rate_mean_between_min_and_max_witness :
    0 < (foldSamples [2]).mCount ∧
      ((foldSamples [2]).mMin ≤ (foldSamples [2]).mMeanAcc / (foldSamples [2]).mCount ∧
        (foldSamples [2]).mMeanAcc / (foldSamples [2]).mCount ≤ (foldSamples [2]).mMax) := by
  have h : 0 < (foldSamples [2]).mCount := by
    norm_num [foldSamples, foldSample, RateVals.init]
  exact ⟨h, rate_mean_between_min_and_max [2] h⟩

/-- Claim C2 (code bug): the source initializes `mMax` to
`std::numeric_limits<double>::min()` — the smallest positive normal
double, `2^(-1022)` — rather than a −∞ sentinel, so folding the first
sample `v = -1` into a fresh record leaves `mMax = 2^(-1022) ≠ -1`; the
sentinel survives as the reported max for keys whose samples are all
below `2^(-1022)`. `mMin` is initialized to the largest finite double and
does take the value of the first sample, and the count starts at 0. -/
theorem rateVals_max_sentinel_bug :
    RateVals.init.mMax = doubleLimitMin ∧
    (foldSample RateVals.init (-1)).mMax = doubleLimitMin ∧
    doubleLimitMin ≠ (-1 : ℚ) ∧
    (foldSample RateVals.init (-1)).mMin = -1 ∧
    RateVals.init.mCount = 0 ∧
    (foldSample RateVals.init (-1)).mCount = 1 := by
  have hpos : (0 : ℚ) < doubleLimitMin := by
    rw [doubleLimitMin]
    positivity
  have hmaxpos : (0 : ℚ) < doubleLimitMax := by
    rw [doubleLimitMax]
    norm_num
  refine ⟨rfl, ?_, ?_, ?_, rfl, ?_⟩
  · simp only [foldSample, RateVals.init]
    exact max_eq_left (by linarith)
  · exact ne_of_gt (by linarith)
  · simp only [foldSample, RateVals.init]
    exact min_eq_right (by linarith)
  · simp only [foldSample, RateVals.init]
    norm_num

/-- Claim C8: folding any permutation of a fixed multiset of rate samples
for one key yields an identical `RateVals` record, and in particular an
identical reported mean. -/
theorem foldSamples_perm_invariant (l₁ l₂ : List ℚ) (hp : l₁.Perm l₂) :
    foldSamples l₁ = foldSamples l₂ ∧
      (foldSamples l₁).mMeanAcc / (foldSamples l₁).mCount =
        (foldSamples l₂).mMeanAcc / (foldSamples l₂).mCount := by
  have h : foldSamples l₁ = foldSamples l₂ := by
    unfold foldSamples
    refine hp.foldl_eq' ?_ RateVals.init
    intro x _ y _ z
    have hmaxrc : ∀ a b c : ℚ, max (max a b) c = max (max a c) b := by
      intro a b c
      rw [max_assoc, max_assoc, max_comm b c]
    simp only [foldSample, RateVals.mk.injEq]
    exact ⟨min_right_comm _ _ _, hmaxrc _ _ _, by ring, trivial⟩
  exact ⟨h, by rw [h]⟩

lemma max_step_distrib (q : ℕ) : (max 250 (500 * q)) * 1000 = max 250000 (500000 * q) := by
  rcases Nat.le_total 250 (500 * q) with hle | hle
  · rw [Nat.max_eq_right hle, Nat.max_eq_right (by omega)]
    ring
  · rw [Nat.max_eq_left hle, Nat.max_eq_left (by omega)]

lemma le_ceil_round (S t : ℕ) (h : 0 < S) : t ≤ ((t + (S - 1)) / S) * S := by
  have h1 : t ≤ S • (t ⌈/⌉ S) := le_smul_ceilDiv h
  rw [smul_eq_mul, Nat.ceilDiv_eq_add_pred_div] at h1
  calc t ≤ S * ((t + S - 1) / S) := h1
    _ = ((t + (S - 1)) / S) * S := by
        have he : t + S - 1 = t + (S - 1) := by omega
        rw [he, mul_comm]

lemma push_capacity_length_le {α : Type} (cap : ℕ) (q : List α) (x : α)
    (h : q.length ≤ cap) : (push_capacity cap q x).length ≤ cap := by
  unfold push_capacity
  split
  · simp only [List.length_append, List.length_cons, List.length_nil]
    omega
  · exact h

lemma applyPush_queues_le (s : DataDistMonitoringState) (op : PushOp)
    (h1 : s.mMetricsQueue.length ≤ 4096) (h2 : s.mRateMetricsQueue.length ≤ 4096) :
    (applyPush s op).mMetricsQueue.length ≤ 4096 ∧
      (applyPush s op).mRateMetricsQueue.length ≤ 4096 := by
  cases op with
  | plain n k v =>
      simp only [applyPush, DataDistMonitoringState.push]
      split
      · exact ⟨push_capacity_length_le _ _ _ h1, h2⟩
      · exact ⟨h1, h2⟩
  | rate n k v =>
      simp only [applyPush, DataDistMonitoringState.push_rate]
      split
      · exact ⟨h1, push_capacity_length_le _ _ _ h2⟩
      · exact ⟨h1, h2⟩

/-- Claim C3 (counterexample): with the active flag false but metric
logging enabled, `push` does enqueue — the gate in the source is
`mLogMetric || mO2Monitoring`, not `mActive`. -/
theorem push_while_inactive_enqueues :
    ({ mActive := false, mLogMetric := true } : DataDistMonitoringState).mActive = false ∧
      (({ mActive := false, mLogMetric := true } : DataDistMonitoringState).push
          "n" "k" 1).mMetricsQueue ≠
        ({ mActive := false, mLogMetric := true } : DataDistMonitoringState).mMetricsQueue := by
  refine ⟨rfl, ?_⟩
  simp [DataDistMonitoringState.push, push_capacity]

/-- Claim C3 (amended): `push` and `push_rate` leave both queues unchanged
precisely when no consumer is configured — `mLogMetric` false and
`mO2Monitoring` null; the `mActive` flag does not gate pushes. -/
theorem push_noop_without_consumer (s : DataDistMonitoringState)
    (n k : String) (v : ℚ) (hlog : s.mLogMetric = false)
    (ho2 : s.mO2Monitoring = none) :
    (s.push n k v).mMetricsQueue = s.mMetricsQueue ∧
      (s.push n k v).mRateMetricsQueue = s.mRateMetricsQueue ∧
      (s.push_rate n k v).mMetricsQueue = s.mMetricsQueue ∧
      (s.push_rate n k v).mRateMetricsQueue = s.mRateMetricsQueue := by
  simp [DataDistMonitoringState.push, DataDistMonitoringState.push_rate, hlog, ho2]

theorem push_noop_without_consumer_witness :
    ({} : DataDistMonitoringState).mLogMetric = false ∧
      ({} : DataDistMonitoringState).mO2Monitoring = none ∧
      ((({} : DataDistMonitoringState).push "n" "k" 1).mMetricsQueue =
          ({} : DataDistMonitoringState).mMetricsQueue ∧
        (({} : DataDistMonitoringState).push "n" "k" 1).mRateMetricsQueue =
          ({} : DataDistMonitoringState).mRateMetricsQueue ∧
        (({} : DataDistMonitoringState).push_rate "n" "k" 1).mMetricsQueue =
          ({} : DataDistMonitoringState).mMetricsQueue ∧
        (({} : DataDistMonitoringState).push_rate "n" "k" 1).mRateMetricsQueue =
          ({} : DataDistMonitoringState).mRateMetricsQueue) :=
  ⟨rfl, rfl, push_noop_without_consumer {} "n" "k" 1 rfl rfl⟩

/-- Claim C4 (counterexample): at `I = 17180000` ms the 32-bit unsigned
multiply `* 1000U` at header line 91 wraps modulo `2^32`: the program
stores `4295000000 % 2^32 = 32704` µs, not the unwrapped
`max(250ms, 500ms * floor(I / 2000ms)) = 4295000000` µs the claim
asserts for every interval. -/
theorem set_interval_step_wrap_counterexample :
    ((({} : DataDistMonitoringState).set_interval 17180000).mMonitoringIntervalStepUs
        = 32704) ∧
      max 250000 (500000 * (17180000 / 2000)) = 4295000000 ∧
      (32704 : ℕ) ≠ 4295000000 := by
  refine ⟨rfl, by decide, by decide⟩

/-- Claim C4 (amended): for every interval `I` below 17180000 ms — the
range on which `max(250U, 500U * floor(I / 2000)) * 1000U` stays below
`2^32`, so the 32-bit multiply does not wrap — the stored window step
equals `max(250ms, 500ms * floor(I / 2000ms))` expressed in microseconds;
in particular `I = 2000` gives a 500ms step and `I = 500` clamps to
250ms. -/
theorem set_interval_window_step (s : DataDistMonitoringState) (pIntMs : ℕ)
    (h : pIntMs < 17180000) :
    (s.set_interval pIntMs).mMonitoringIntervalStepUs =
        max 250000 (500000 * (pIntMs / 2000)) ∧
      (s.set_interval 2000).mMonitoringIntervalStepUs = 500000 ∧
      (s.set_interval 500).mMonitoringIntervalStepUs = 250000 := by
  refine ⟨?_, rfl, rfl⟩
  simp only [DataDistMonitoringState.set_interval]
  have hq : 500 * (pIntMs / 2000) ≤ 4294500 := by omega
  have hmax : max 250 (500 * (pIntMs / 2000)) ≤ 4294500 := max_le (by norm_num) hq
  have hlt : (max 250 (500 * (pIntMs / 2000))) * 1000 < 2 ^ 32 := by
    calc (max 250 (500 * (pIntMs / 2000))) * 1000
        ≤ 4294500 * 1000 := mul_le_mul_right' hmax 1000
      _ < 2 ^ 32 := by norm_num
  rw [Nat.mod_eq_of_lt hlt, max_step_distrib]

theorem set_interval_window_step_witness :
    2000 < 17180000 ∧
      ((({} : DataDistMonitoringState).set_interval 2000).mMonitoringIntervalStepUs =
          max 250000 (500000 * (2000 / 2000)) ∧
        (({} : DataDistMonitoringState).set_interval 2000).mMonitoringIntervalStepUs = 500000 ∧
        (({} : DataDistMonitoringState).set_interval 500).mMonitoringIntervalStepUs = 250000) :=
  ⟨by decide, set_interval_window_step {} 2000 (by decide)⟩

/-- Claim C5: with the step derived from interval 2000ms (500ms), the
rounder maps 1999ms to 2000ms, 2000ms to 2000ms and 2001ms to 2500ms;
interval 500ms clamps the step to 250ms and the rounder lands on the
250ms grid; in general `roundTimeNow` computes `ceilDiv(t, S) * S`. -/
theorem roundTimeNow_values_and_ceilDiv (s : DataDistMonitoringState) (tUs : ℕ) :
    (s.set_interval 2000).roundTimeNow 1999000 = 2000000 ∧
      (s.set_interval 2000).roundTimeNow 2000000 = 2000000 ∧
      (s.set_interval 2000).roundTimeNow 2001000 = 2500000 ∧
      (s.set_interval 500).mMonitoringIntervalStepUs = 250000 ∧
      (s.set_interval 500).roundTimeNow 250001 = 500000 ∧
      s.roundTimeNow tUs =
        (tUs ⌈/⌉ s.mMonitoringIntervalStepUs) * s.mMonitoringIntervalStepUs := by
  refine ⟨?_, ?_, ?_, rfl, ?_, ?_⟩
  case _ => norm_num [DataDistMonitoringState.set_interval, DataDistMonitoringState.roundTimeNow]
  case _ => norm_num [DataDistMonitoringState.set_interval, DataDistMonitoringState.roundTimeNow]
  case _ => norm_num [DataDistMonitoringState.set_interval, DataDistMonitoringState.roundTimeNow]
  case _ => norm_num [DataDistMonitoringState.set_interval, DataDistMonitoringState.roundTimeNow]
  simp only [DataDistMonitoringState.roundTimeNow]
  rw [Nat.ceilDiv_eq_add_pred_div]
  cases hS : s.mMonitoringIntervalStepUs with
  | zero => simp
  | succ n =>
      have he : tUs + (n + 1 - 1) = tUs + (n + 1) - 1 := by omega
      rw [he]

/-- Claim C6: for every instant and positive window step, the rounded
window start returned by `roundTimeNow` is at least the instant itself. -/
theorem roundTimeNow_ge_instant (s : DataDistMonitoringState) (tUs : ℕ)
    (h : 0 < s.mMonitoringIntervalStepUs) : tUs ≤ s.roundTimeNow tUs :=
  le_ceil_round s.mMonitoringIntervalStepUs tUs h

theorem roundTimeNow_ge_instant_witness :
    0 < ({} : DataDistMonitoringState).mMonitoringIntervalStepUs ∧
      1999000 ≤ ({} : DataDistMonitoringState).roundTimeNow 1999000 :=
  ⟨by decide, roundTimeNow_ge_instant {} 1999000 (by decide)⟩

/-- Claim C7 (counterexample): the claim ranges over every float
`pInterval`, but at `pInterval = 5000000` seconds — exactly representable
as a float and far above the epsilon threshold — `round(pInterval * 1000)`
is `5 * 10^9 ≥ 2^32`, so the double-to-`unsigned` conversion at header
line 173 is undefined behavior and no defined execution stores the claimed
interval (the 32-bit `mMonitoringIntervalMs` cannot hold `5 * 10^9`); the
model returns `none` there. -/
theorem monitor_set_interval_overflow_counterexample :
    floatEpsilon < 5000000 ∧
      round ((5000000 : ℚ) * 1000) = 5000000000 ∧
      (2 ^ 32 : ℤ) < 5000000000 ∧
      DataDistMonitor.set_interval 5000000 ({} : DataDistMonitoringState) = none := by
  have hr : round ((5000000 : ℚ) * 1000) = 5000000000 := by
    have h : (5000000 : ℚ) * 1000 = ((5000000000 : ℤ) : ℚ) := by norm_num
    rw [h, round_intCast]
  refine ⟨by norm_num [floatEpsilon], hr, by norm_num, ?_⟩
  simp only [DataDistMonitor.set_interval, hr]
  rw [if_neg (by norm_num [floatEpsilon]), if_neg (by norm_num)]

/-- Claim C7 (amended): for every float `pInterval`: at or below the float
epsilon threshold the pipeline is deactivated and the stored interval and
window step are left unchanged; above the threshold, provided
`round(pInterval * 1000) < 2^32` so that the double-to-`unsigned`
conversion is defined, the pipeline interval is set to
`round(pInterval * 1000)` milliseconds (the window step being recomputed,
with the source's 32-bit wrap) and the active flag is left unchanged; for
`round(pInterval * 1000) ≥ 2^32` the conversion is undefined behavior. -/
theorem monitor_set_interval_branches (p : ℚ) (s : DataDistMonitoringState) :
    DataDistMonitor.set_interval p s =
      if p ≤ floatEpsilon then some ({ s with mActive := false })
      else if 0 ≤ round (p * 1000) ∧ round (p * 1000) < 2 ^ 32 then
        some ({ s with
                 mMonitoringIntervalMs := (round (p * 1000)).toNat
                 mMonitoringIntervalStepUs :=
                   (max 250000 (500000 * ((round (p * 1000)).toNat / 2000))) % 2 ^ 32 })
      else none := by
  by_cases hp : p ≤ floatEpsilon
  · simp only [DataDistMonitor.set_interval, if_pos hp]
    rfl
  · simp only [DataDistMonitor.set_interval, if_neg hp]
    by_cases hr : 0 ≤ round (p * 1000) ∧ round (p * 1000) < 2 ^ 32
    · simp only [if_pos hr, DataDistMonitoringState.set_interval, Option.some.injEq]
      rw [← max_step_distrib]
    · simp only [if_neg hr]

/-- Claim C9: a burst of `push`/`push_rate` calls against queues holding
at most 4096 elements never grows either queue beyond 4096 elements; the
excess is dropped by `push_capacity` with no error returned. -/
theorem push_burst_queue_bound (s : DataDistMonitoringState) (ops : List PushOp)
    (h1 : s.mMetricsQueue.length ≤ 4096)
    (h2 : s.mRateMetricsQueue.length ≤ 4096) :
    (applyPushes s ops).mMetricsQueue.length ≤ 4096 ∧
      (applyPushes s ops).mRateMetricsQueue.length ≤ 4096 := by
  induction ops generalizing s with
  | nil => exact ⟨h1, h2⟩
  | cons op t ih =>
      obtain ⟨g1, g2⟩ := applyPush_queues_le s op h1 h2
      exact ih (applyPush s op) g1 g2

theorem push_burst_queue_bound_witness :
    ({} : DataDistMonitoringState).mMetricsQueue.length ≤ 4096 ∧
      ({} : DataDistMonitoringState).mRateMetricsQueue.length ≤ 4096 ∧
      ((applyPushes {} [PushOp.plain "a" "k" 1, PushOp.rate "b" "k" 2]).mMetricsQueue.length ≤ 4096 ∧
        (applyPushes {} [PushOp.plain "a" "k" 1, PushOp.rate "b" "k" 2]).mRateMetricsQueue.length ≤ 4096) :=
  ⟨by decide, by decide,
    push_burst_queue_bound {} [PushOp.plain "a" "k" 1, PushOp.rate "b" "k" 2]
      (by decide) (by decide)⟩

/-- Claim C10: `enable_datadist` forwards `max(pRunNum, 1)` to
`set_run_number` — the backend's recorded run number is never below 1,
also for `pRunNum = 0` — adds the partition tag, and activates the
pipeline; a null monitor pointer is left untouched. -/
theorem enable_datadist_effects (pRunNum : ℕ) (pPartId : String)
    (s : DataDistMonitoringState) :
    (DataDistMonitor.enable_datadist pRunNum pPartId (some s)).map
        (fun t => t.mActive) = some true ∧
      (DataDistMonitor.enable_datadist pRunNum pPartId (some s)).map
          (fun t => t.mO2Monitoring) =
        some (s.mO2Monitoring.map (fun m =>
          { m with
            runNumber := max pRunNum 1
            globalTags := ("partition", pPartId) :: m.globalTags })) ∧
      1 ≤ max pRunNum 1 ∧
      DataDistMonitor.enable_datadist pRunNum pPartId none = none := by
  refine ⟨rfl, ?_, le_max_right _ _, rfl⟩
  cases h : s.mO2Monitoring with
  | none =>
      simp [DataDistMonitor.enable_datadist, DataDistMonitoringState.set_run_number,
        DataDistMonitoringState.set_partition_id, DataDistMonitoringState.set_active, h]
  | some m =>
      simp [DataDistMonitor.enable_datadist, DataDistMonitoringState.set_run_number,
        DataDistMonitoringState.set_partition_id, DataDistMonitoringState.set_active, h]

theorem foldSamples_perm_invariant_witness :
    ([1, 2] : List ℚ).Perm [2, 1] ∧
      (foldSamples [1, 2] = foldSamples [2, 1] ∧
        (foldSamples [1, 2]).mMeanAcc / (foldSamples [1, 2]).mCount =
          (foldSamples [2, 1]).mMeanAcc / (foldSamples [2, 1]).mCount) := by
  have hp : ([1, 2] : List ℚ).Perm [2, 1] := List.Perm.swap 2 1 []
  exact ⟨hp, foldSamples_perm_invariant [1, 2] [2, 1] hp⟩

end DataDistribution
